import Mathlib

/-!
Verification development for the Pixiv-Downloader batch-download core.

The definitions below are shallow embeddings of the TypeScript source:
  * `HistoryDb` models the durable history store of `src/unnamed/part_002`
    (class `HistoryDb`): the Dexie table and the in-memory `caches` mirror
    are both represented as association lists keyed by the JavaScript
    number (modelled as `ℚ`, which captures negative and non-integer
    identifiers), with a record value `Option (List Nat)` where `none`
    means "fully downloaded" (the `null` / missing `page` field) and
    `some arr` is the page bitset (`Uint8Array` as a list of bytes).
  * `BatchDownload` models the orchestration engine of
    `src/src/lib/components/Downloader/useBatchDownload.ts`
    (`defineBatchDownload`): the pure filter pipeline (`filterTag`,
    `checkValidity`), the entry guard of `batchDownload`, and a small-step
    machine for `dispatchDownload` driven by an explicit event schedule
    (task settlements, timer/promise firings, abort requests), which is
    faithful to the single-threaded cooperative scheduling of the source:
    asynchronous callbacks run only at `await` points.
-/

namespace HistoryDb

/-- A history record value: `none` models a record whose `page` field is
absent (fully downloaded, mirrored as `null` in `caches`); `some arr`
models a partial record whose `page` field is the `Uint8Array` bitset. -/
abbrev Rec := Option (List Nat)

/-- The store state: `table` is the Dexie `history` table, `caches` the
in-memory mirror populated at startup. Both are keyed by the work id. -/
structure Db where
  table : List (ℚ × Rec)
  caches : List (ℚ × Rec)
deriving DecidableEq, Repr

/-- The empty store. -/
def emptyDb : Db := ⟨[], []⟩

/-- Association-list upsert, modelling `Table.put` / `Map.set` keyed by pid. -/
def setKey (l : List (ℚ × Rec)) (k : ℚ) (v : Rec) : List (ℚ × Rec) :=
  match l with
  | [] => [(k, v)]
  | (a, w) :: rest => if a = k then (k, v) :: rest else (a, w) :: setKey rest k v

/-- Association-list lookup, modelling `Table.get` / `Map.get` keyed by pid. -/
def getKey (l : List (ℚ × Rec)) (k : ℚ) : Option Rec :=
  match l with
  | [] => none
  | (a, w) :: rest => if a = k then some w else getKey rest k

/-- Model of `throwIfInvalidNumber`: `Number.isSafeInteger(num) && num >= 0`.
A JavaScript number is modelled as a rational; it is a non-negative safe
integer iff its denominator is 1, it is non-negative, and it is at most
`2^53 - 1`. -/
def validNum (q : ℚ) : Bool :=
  q.den == 1 && decide (0 ≤ q.num) && decide (q.num ≤ 9007199254740991)

/-- The error message raised by `throwIfInvalidNumber`. -/
def invalidMsg (q : ℚ) : String :=
  "Invalid number:" ++ toString q ++ ", must be a non-negative integer."

/-- One byte-cell update `arr[i] |= 1 << b`, with the `Uint8Array`
truncation to a byte. -/
def setByte (arr : List Nat) (i b : Nat) : List Nat :=
  arr.set i ((arr.getD i 0 ||| (1 <<< b)) % 256)

/-- Model of `HistoryDb.updatePageArray`. `byteIndex > pageArray.length - 1`
is evaluated over the integers, as in JavaScript. -/
def updatePageArray (page : Nat) (pageArray : Option (List Nat)) : List Nat :=
  let byteIndex := page / 8
  let bitIndex := page % 8
  match pageArray with
  | none =>
    setByte (List.replicate (byteIndex + 1) 0) byteIndex bitIndex
  | some arr =>
    if (byteIndex : Int) > (arr.length : Int) - 1 then
      setByte (arr ++ List.replicate (byteIndex + 1 - arr.length) 0) byteIndex bitIndex
    else
      setByte arr byteIndex bitIndex

/-- Model of the body of `HistoryDb.add` after its argument validation
(the transaction over `history` plus the `caches` updates). `page = none`
models a call whose `page` field is `undefined`. -/
def add (db : Db) (pid : ℚ) (page : Option Nat) : Db :=
  match page with
  | some p =>
    match getKey db.table pid with
    | some (some arr) =>
      -- not fully downloaded
      let u8arr := updatePageArray p (some arr)
      { table := setKey db.table pid (some u8arr),
        caches := setKey db.caches pid (some u8arr) }
    | some none =>
      -- fully downloaded: `delete historyData.page` then put, caches untouched
      { db with table := setKey db.table pid none }
    | none =>
      -- new download
      let u8arr := updatePageArray p none
      { table := setKey db.table pid (some u8arr),
        caches := setKey db.caches pid (some u8arr) }
  | none => { table := setKey db.table pid none, caches := setKey db.caches pid none }

/-- Model of `HistoryDb.add` including the `throwIfInvalidNumber` guards,
which run before any record is read or written. -/
def addQ (db : Db) (pid : ℚ) (page : Option ℚ) : Except String Db :=
  if !validNum pid then .error (invalidMsg pid)
  else
    match page with
    | none => .ok (add db pid none)
    | some p =>
      if !validNum p then .error (invalidMsg p)
      else .ok (add db pid (some p.num.toNat))

/-- Model of `HistoryDb.has` (numeric argument, mirror loaded): validation,
then membership in `caches`. -/
def hasQ (db : Db) (pid : ℚ) : Except String Bool :=
  if !validNum pid then .error (invalidMsg pid)
  else .ok (getKey db.caches pid).isSome

/-- Model of the body of `HistoryDb.hasPage` after validation (mirror
loaded): a missing record is `false`, a fully-downloaded record (`null`
in `caches`) is `true`, and a partial record requires the byte index to be
covered and the bit to be set. The bounds test is over the integers. -/
def hasPage (db : Db) (pid : ℚ) (page : Nat) : Bool :=
  let byteIndex := page / 8
  let bitIndex := page % 8
  match getKey db.caches pid with
  | some none => true
  | some (some arr) =>
    !(decide ((byteIndex : Int) > (arr.length : Int) - 1)) &&
      (arr.getD byteIndex 0 &&& (1 <<< bitIndex)) != 0
  | none => false

/-- Model of `HistoryDb.hasPage` including both `throwIfInvalidNumber`
guards. -/
def hasPageQ (db : Db) (pid : ℚ) (page : ℚ) : Except String Bool :=
  if !validNum pid then .error (invalidMsg pid)
  else if !validNum page then .error (invalidMsg page)
  else .ok (hasPage db pid page.num.toNat)

/-- Model of `HistoryDb.bulkAdd`: each datum updates the mirror
(`page || null`) and is put into the table. The source performs no
identifier validation here. -/
def bulkAdd (db : Db) (datas : List (ℚ × Rec)) : Db :=
  datas.foldl (fun acc d => { table := setKey acc.table d.1 d.2,
                              caches := setKey acc.caches d.1 d.2 }) db

/-- `bulkAdd` wrapped in the same result type as the validated operations,
to compare its error behaviour with theirs: the source raises nothing. -/
def bulkAddQ (db : Db) (datas : List (ℚ × Rec)) : Except String Db :=
  .ok (bulkAdd db datas)

theorem getKey_setKey_self (l : List (ℚ × Rec)) (k : ℚ) (v : Rec) :
    getKey (setKey l k v) k = some v := by
  induction l with
  | nil => simp [setKey, getKey]
  | cons h t ih =>
    obtain ⟨a, w⟩ := h
    by_cases hak : a = k
    · simp [setKey, getKey, hak]
    · simp [setKey, getKey, hak, ih]

end HistoryDb

/-- Claim C7: on the empty store, `add(1, page=3)` yields a one-byte bitset
with bit 3 set; then `hasPage(1,3)` is true, `hasPage(1,4)` is false, and
`hasPage(1,9)` (byte index beyond the bitset) is false rather than an
error; a subsequent `add(1, page=10)` grows the bitset to 2 bytes,
preserving bit 3 and setting bit 10, after which `hasPage(1,3)` and
`hasPage(1,10)` are both true. -/
theorem C7_roundtrip_growth :
    (HistoryDb.getKey (HistoryDb.add HistoryDb.emptyDb 1 (some 3)).caches 1
        = some (some [8])) ∧
    HistoryDb.hasPage (HistoryDb.add HistoryDb.emptyDb 1 (some 3)) 1 3 = true ∧
    HistoryDb.hasPage (HistoryDb.add HistoryDb.emptyDb 1 (some 3)) 1 4 = false ∧
    HistoryDb.hasPage (HistoryDb.add HistoryDb.emptyDb 1 (some 3)) 1 9 = false ∧
    (HistoryDb.getKey
        (HistoryDb.add (HistoryDb.add HistoryDb.emptyDb 1 (some 3)) 1 (some 10)).caches 1
        = some (some [8, 4])) ∧
    HistoryDb.hasPage
        (HistoryDb.add (HistoryDb.add HistoryDb.emptyDb 1 (some 3)) 1 (some 10)) 1 3 = true ∧
    HistoryDb.hasPage
        (HistoryDb.add (HistoryDb.add HistoryDb.emptyDb 1 (some 3)) 1 (some 10)) 1 10 = true := by
  decide

/-- Claim C8: a full `add(workId)` after partial pages were recorded clears
the partial bitset (both in the table and in the mirror) and marks the work
fully downloaded, after which `hasPage` is true for every page; conversely,
for a work already marked fully downloaded, a page-scoped `add` leaves it
fully downloaded and `hasPage` stays true for every page. -/
theorem C8_full_download_dominates (db : HistoryDb.Db) (w : ℚ) (p q r : Nat) :
    (HistoryDb.getKey (HistoryDb.add db w none).caches w = some none ∧
     HistoryDb.getKey (HistoryDb.add db w none).table w = some none ∧
     HistoryDb.hasPage (HistoryDb.add db w none) w p = true) ∧
    (HistoryDb.getKey db.table w = some none →
     HistoryDb.getKey db.caches w = some none →
     HistoryDb.getKey (HistoryDb.add db w (some q)).table w = some none ∧
     HistoryDb.hasPage (HistoryDb.add db w (some q)) w r = true) := by
  constructor
  · refine ⟨?_, ?_, ?_⟩
    · simp [HistoryDb.add, HistoryDb.getKey_setKey_self]
    · simp [HistoryDb.add, HistoryDb.getKey_setKey_self]
    · simp [HistoryDb.add, HistoryDb.hasPage, HistoryDb.getKey_setKey_self]
  · intro htab hcache
    constructor
    · simp [HistoryDb.add, htab, HistoryDb.getKey_setKey_self]
    · simp [HistoryDb.add, HistoryDb.hasPage, htab, hcache]

/-- Witness for C8: concrete instances. A store holding a partial record
for work 5 (page 2) answers `hasPage(5, 99)` with true after a full add;
a store holding a fully-downloaded record for work 7 still answers
`hasPage(7, 11)` with true after `add(7, page=3)`. -/
theorem C8_witness :
    HistoryDb.hasPage
      (HistoryDb.add (HistoryDb.add HistoryDb.emptyDb 5 (some 2)) 5 none) 5 99 = true ∧
    (HistoryDb.getKey (HistoryDb.add HistoryDb.emptyDb 7 none).table 7 = some none ∧
     HistoryDb.getKey (HistoryDb.add HistoryDb.emptyDb 7 none).caches 7 = some none) ∧
    HistoryDb.hasPage
      (HistoryDb.add (HistoryDb.add HistoryDb.emptyDb 7 none) 7 (some 3)) 7 11 = true :=
  ⟨(C8_full_download_dominates
      (HistoryDb.add HistoryDb.emptyDb 5 (some 2)) 5 99 0 0).1.2.2,
   ⟨by decide, by decide⟩,
   ((C8_full_download_dominates
      (HistoryDb.add HistoryDb.emptyDb 7 none) 7 0 3 11).2 (by decide) (by decide)).2⟩

/-- Counterexample to claim C9: `bulkAdd` with the negative identifier `-1`
raises no error at all; it silently writes the record (visible in the
mirror afterwards), contradicting the claim that every identifier-accepting
operation, `bulkAdd` included, raises a fatal error on invalid input. -/
theorem C9_counterexample :
    HistoryDb.bulkAddQ HistoryDb.emptyDb [((-1 : ℚ), none)]
        = .ok ⟨[((-1 : ℚ), none)], [((-1 : ℚ), none)]⟩ ∧
    HistoryDb.getKey
        (HistoryDb.bulkAdd HistoryDb.emptyDb [((-1 : ℚ), none)]).caches (-1)
        = some none :=
  ⟨rfl, by decide⟩

/-- Claim C9 as amended: `add`, `has` and `hasPage` validate each numeric
identifier and raise the fatal error before any record is read or written
(the error is produced with no store access and no store change); `bulkAdd`
performs no such validation. -/
theorem C9_amended (db : HistoryDb.Db) (pid p : ℚ) (page : Option ℚ) :
    (HistoryDb.validNum pid = false →
      HistoryDb.addQ db pid page = .error (HistoryDb.invalidMsg pid) ∧
      HistoryDb.hasQ db pid = .error (HistoryDb.invalidMsg pid) ∧
      HistoryDb.hasPageQ db pid p = .error (HistoryDb.invalidMsg pid)) ∧
    (HistoryDb.validNum pid = true → HistoryDb.validNum p = false →
      HistoryDb.addQ db pid (some p) = .error (HistoryDb.invalidMsg p) ∧
      HistoryDb.hasPageQ db pid p = .error (HistoryDb.invalidMsg p)) := by
  constructor
  · intro h
    refine ⟨?_, ?_, ?_⟩ <;> simp [HistoryDb.addQ, HistoryDb.hasQ, HistoryDb.hasPageQ, h]
  · intro hpid hp
    constructor <;> simp [HistoryDb.addQ, HistoryDb.hasPageQ, hpid, hp]

/-- Witness for C9 as amended: the negative identifier `-1` makes `add`,
`has`, `hasPage` raise, and the non-integer page `1/2` makes a page-scoped
`add` on valid work id 1 raise. -/
theorem C9_witness :
    (HistoryDb.validNum (-1) = false ∧
     HistoryDb.addQ HistoryDb.emptyDb (-1) none
        = .error (HistoryDb.invalidMsg (-1)) ∧
     HistoryDb.hasQ HistoryDb.emptyDb (-1)
        = .error (HistoryDb.invalidMsg (-1))) ∧
    (HistoryDb.validNum (mkRat 1 2) = false ∧
     HistoryDb.addQ HistoryDb.emptyDb 1 (some (mkRat 1 2))
        = .error (HistoryDb.invalidMsg (mkRat 1 2))) :=
  ⟨⟨by decide,
    ((C9_amended HistoryDb.emptyDb (-1) 0 none).1 (by decide)).1,
    ((C9_amended HistoryDb.emptyDb (-1) 0 none).1 (by decide)).2.1⟩,
   ⟨by decide,
    ((C9_amended HistoryDb.emptyDb 1 (mkRat 1 2) none).2 (by decide) (by decide)).1⟩⟩

namespace BatchDownload

/-- The slice of an artwork's partial metadata that the tag filter reads:
`tags = none` models a metadata object with no `tags` array (either the
property is absent or it is not an array). -/
structure PartialMeta where
  tags : Option (List String)
deriving DecidableEq, Repr

/-- Model of `filterTag` from `useBatchDownload.ts`: no tag list passes;
otherwise a non-empty whitelist is consulted first (pass iff some
whitelisted tag is present), and the blacklist is consulted only when the
whitelist is empty (pass iff no blacklisted tag is present). -/
def filterTag (whitelistTag blacklistTag : List String) (partialMeta : PartialMeta) : Bool :=
  match partialMeta.tags with
  | none => true
  | some tags =>
    if whitelistTag.length != 0 then
      whitelistTag.any (fun tag => tags.contains tag)
    else if blacklistTag.length != 0 then
      !(blacklistTag.any (fun tag => tags.contains tag))
    else true

/-- Modelled from the spec: the tag-filter policy as the specification
words it — "reject immediately if a deny-list tag is present (when a deny
list exists); otherwise require at least one allow-list tag to be present
(when an allow list exists); if neither list is populated, tag filtering
passes trivially". Used only to compare against `filterTag`. -/
def specTagFilter (whitelistTag blacklistTag : List String) (partialMeta : PartialMeta) : Bool :=
  match partialMeta.tags with
  | none => true
  | some tags =>
    if blacklistTag.length != 0 && blacklistTag.any (fun tag => tags.contains tag) then
      false
    else if whitelistTag.length != 0 then
      whitelistTag.any (fun tag => tags.contains tag)
    else true

/-- A selected filter predicate: it may return a boolean or throw
(`Except.error`), as the `fn` callbacks of the filter options may. -/
abbrev FilterFn := PartialMeta → Except Unit Bool

/-- Sequential OR over a list of predicates, stopping at the first `true`,
propagating a thrown error: the shape of both predicate loops in
`checkValidity`. -/
def anyFilter (fns : List FilterFn) (m : PartialMeta) : Except Unit Bool :=
  match fns with
  | [] => .ok false
  | fn :: rest =>
    match fn m with
    | .error e => .error e
    | .ok true => .ok true
    | .ok false => anyFilter rest m

/-- The body of `checkValidity` before its surrounding `try/catch`: tag
filter (when enabled), the fail-closed empty-include check, then the
exclude predicates (any match rejects) and the include predicates (any
match accepts). -/
def checkValidityCore (enableTagFilter : Bool) (whitelistTag blacklistTag : List String)
    (includeFilters excludeFilters : List FilterFn) (m : PartialMeta) : Except Unit Bool :=
  if enableTagFilter && !filterTag whitelistTag blacklistTag m then .ok false
  else if includeFilters.length == 0 then .ok false
  else
    match anyFilter excludeFilters m with
    | .error e => .error e
    | .ok true => .ok false
    | .ok false => anyFilter includeFilters m

/-- Model of `checkValidity`: the `try/catch` turns a thrown predicate
error into `false` (the item falls through to "excluded"). -/
def checkValidity (enableTagFilter : Bool) (whitelistTag blacklistTag : List String)
    (includeFilters excludeFilters : List FilterFn) (m : PartialMeta) : Bool :=
  match checkValidityCore enableTagFilter whitelistTag blacklistTag
      includeFilters excludeFilters m with
  | .error _ => false
  | .ok b => b

/-- The reason recorded for a failed item. -/
inductive Reason
  | masked
  | parseError (is429 : Bool)
  | downloadError (is429 : Bool)
deriving DecidableEq, Repr

/-- The observable stores of `defineBatchDownload` that `batchDownload`
resets at the start of a run, plus the `downloading` flag. -/
structure RunStores where
  artworkCount : Option Nat
  successd : List String
  failed : List (String × Reason)
  excluded : List String
  downloading : Bool
deriving DecidableEq, Repr

/-- Model of `reset` restricted to the observable stores: counters and
lists are cleared (`artworkCount` to `null`). -/
def resetStores (rs : RunStores) : RunStores :=
  { rs with artworkCount := none, successd := [], failed := [], excluded := [] }

/-- Model of the entry of `batchDownload`: `setDownloading(true)` throws
`'Already downloading.'` when the flag is already set, in which case the
update callback aborts and no store is touched; only otherwise does the
flag flip and `reset()` run. -/
def batchDownloadEntry (rs : RunStores) : RunStores × Option String :=
  if rs.downloading then (rs, some "Already downloading.")
  else (resetStores { rs with downloading := true }, none)

end BatchDownload

/-- Counterexample to claim C5: metadata carrying both an allow-list tag
and a deny-list tag, with both lists populated, passes the source's tag
filter (the whitelist is checked first and the blacklist is then ignored),
while the claimed deny-first policy rejects it; with any include predicate
selected the item is therefore accepted end to end. -/
theorem C5_counterexample :
    BatchDownload.filterTag ["a"] ["b"] ⟨some ["a", "b"]⟩ = true ∧
    BatchDownload.specTagFilter ["a"] ["b"] ⟨some ["a", "b"]⟩ = false ∧
    BatchDownload.checkValidity true ["a"] ["b"]
      [fun _ => .ok true] [] ⟨some ["a", "b"]⟩ = true := by
  refine ⟨by decide, by decide, rfl⟩

/-- Claim C5 as amended: when tag filtering applies to metadata exposing a
tag list, a non-empty allow list takes precedence: the item passes iff an
allow-list tag is present, the deny list being ignored; the deny list is
consulted only when the allow list is empty, the item then passing iff no
deny-list tag is present; with both lists empty the filter passes; and
metadata without a tag list always passes. -/
theorem C5_amended (wl bl tags : List String) :
    (BatchDownload.filterTag wl bl ⟨some tags⟩ = true ↔
      ((wl ≠ [] ∧ ∃ t ∈ wl, t ∈ tags) ∨
       (wl = [] ∧ bl ≠ [] ∧ ¬∃ t ∈ bl, t ∈ tags) ∨
       (wl = [] ∧ bl = []))) ∧
    BatchDownload.filterTag wl bl ⟨none⟩ = true := by
  constructor
  · unfold BatchDownload.filterTag
    rcases wl with _ | ⟨w, ws⟩
    · rcases bl with _ | ⟨b, bs⟩
      · simp
      · simp [List.any_eq_true, List.contains, List.elem_eq_mem]
    · simp [List.any_eq_true, List.contains, List.elem_eq_mem]
  · rfl

/-- Claim C6: with no include predicate selected, `checkValidity` returns
`false` regardless of the tag-filter switch, the tag lists, the exclude
predicates and the metadata — a run with nothing selected to include
accepts nothing. -/
theorem C6_fail_closed (enableTagFilter : Bool) (wl bl : List String)
    (excludeFilters : List BatchDownload.FilterFn) (m : BatchDownload.PartialMeta) :
    BatchDownload.checkValidity enableTagFilter wl bl [] excludeFilters m = false := by
  by_cases h : (enableTagFilter && !BatchDownload.filterTag wl bl m) = true
  · simp [BatchDownload.checkValidity, BatchDownload.checkValidityCore, h]
  · simp [BatchDownload.checkValidity, BatchDownload.checkValidityCore, h]

/-- Claim C10: invoking `batchDownload` while the `downloading` flag is
already set fails with the `'Already downloading.'` error and leaves every
store — `artworkCount`, `successd`, `failed`, `excluded` — untouched: the
reset that begins a new run is never reached. -/
theorem C10_already_downloading (rs : BatchDownload.RunStores)
    (h : rs.downloading = true) :
    BatchDownload.batchDownloadEntry rs = (rs, some "Already downloading.") := by
  simp [BatchDownload.batchDownloadEntry, h]

/-- Witness for C10: a mid-run state with non-trivial counters is returned
unchanged together with the error. -/
theorem C10_witness :
    BatchDownload.batchDownloadEntry
        ⟨some 4, ["1"], [("2", .downloadError false)], ["3"], true⟩
      = (⟨some 4, ["1"], [("2", .downloadError false)], ["3"], true⟩,
         some "Already downloading.") :=
  C10_already_downloading _ rfl

namespace BatchDownload

/-- One yield of a discovery generator (`YieldArtworkId`), with the
source's field spellings. -/
structure Batch where
  total : Nat
  page : Nat
  avaliable : List String
  invalid : List String
  unavaliable : List String
deriving DecidableEq, Repr

/-- Outcome of `parseMetaByArtworkId` for a given id: metadata, or a
rejection (whose error may be a `RequestError` with status 429). -/
inductive ParseRes
  | ok
  | fail (is429 : Bool)
deriving DecidableEq, Repr

/-- Static configuration of a run: the inline-filtering switch and the
externally supplied outcomes of metadata parsing and of `checkValidity`
for each artwork id. -/
structure Cfg where
  filterWhenGenerateIngPage : Bool
  parse : String → ParseRes
  valid : String → Bool

/-- A dispatched download task: its dispatch serial, the artwork id, and
the task id `generateTaskID` produced. -/
structure Flight where
  serial : Nat
  artId : String
  taskId : String
deriving DecidableEq, Repr

/-- Control position of `dispatchDownload`, one constructor per `await`
suspension point, plus the two terminal outcomes of `batchDownload`. -/
inductive Pc
  | whileAwait
  | emptyBatchSleep
  | cooldownAwait (id : String) (rest : List String)
  | parseAwait (id : String) (rest : List String)
  | validityAwait (id : String) (rest : List String)
  | thresholdAwait (rest : List String)
  | politenessAwait (rest : List String)
  | finalWait
  | doneCompleted
  | doneAborted
deriving DecidableEq, Repr

/-- The mutable state of one `batchDownload` run. `tracked` is the set of
dispatch serials currently in the `dlPromise` array; `inFlight` the
dispatched-but-unsettled tasks; `latched` records that the
`waitUntilDownloadComplete` promise has resolved and `latchSt` snapshots
(`artworkCount`, |successd|, |failed|, |excluded|) at that moment;
`waitRejected` records that it was rejected by the abort listener;
`abortCb` the argument passed to `onDownloadAbort`. `n429` counts the
rate-limit signals observed by the failure handler and `nCooldown` the
cooldowns performed (monitor counters). -/
structure St where
  artworkCount : Option Nat
  successd : List String
  failed : List (String × Reason)
  excluded : List String
  tasks : List String
  inFlight : List Flight
  tracked : List Nat
  nextTask : Nat
  status429 : Bool
  latched : Bool
  latchSt : Option (Option Nat × Nat × Nat × Nat)
  aborted : Bool
  waitRejected : Bool
  abortCb : Option (List String)
  batches : List Batch
  pc : Pc
  n429 : Nat
  nCooldown : Nat
deriving DecidableEq, Repr

/-- The concurrency budget (`const THRESHOLD = 5`). -/
def THRESHOLD : Nat := 5

/-- Model of the derived store `checkIfDownloadCompleted`: with a `null`
count the comparison `null === s + f + e` is false; otherwise the count
must equal the sum of the three list lengths. -/
def checkIfDownloadCompleted (c : Option Nat) (s f e : Nat) : Bool :=
  match c with
  | none => false
  | some n => n == s + f + e

/-- The completion condition evaluated on the current stores. -/
def condNow (st : St) : Bool :=
  checkIfDownloadCompleted st.artworkCount st.successd.length st.failed.length
    st.excluded.length

/-- The derived-store subscription: after every store update, if the
completion condition holds and the completion promise is still pending,
it resolves (`downloadCompleted()`), latching the moment's snapshot. -/
def tryLatch (st : St) : St :=
  if st.latched || st.waitRejected then st
  else if condNow st then
    { st with latched := true,
              latchSt := some (st.artworkCount, st.successd.length,
                               st.failed.length, st.excluded.length) }
  else st

/-- Model of `addSuccessd` (single id) followed by the derived-store
subscription. -/
def addSuccessd (st : St) (id : String) : St :=
  tryLatch { st with successd := st.successd ++ [id] }

/-- Model of `addFailed` (one `failed.update` call) followed by the
derived-store subscription. -/
def addFailedItems (st : St) (items : List (String × Reason)) : St :=
  tryLatch { st with failed := st.failed ++ items }

/-- Model of `addExcluded` (one `excluded.update` call) followed by the
derived-store subscription. -/
def addExcludedIds (st : St) (ids : List String) : St :=
  tryLatch { st with excluded := st.excluded ++ ids }

/-- Model of `setArtworkCount` followed by the derived-store
subscription. -/
def setArtworkCount (st : St) (n : Nat) : St :=
  tryLatch { st with artworkCount := some n }

/-- Model of `generateTaskID`: the artwork id, an underscore, and a
non-empty random suffix (modelled by the dispatch serial). -/
def generateTaskID (id : String) (serial : Nat) : String :=
  id ++ "_" ++ toString serial

/-- Model of the `removeTask` finally-handler: find the first element of
`tasks` equal to the artwork id and splice it out (the source compares
the stored task ids against the artwork id). -/
def removeTask (ts : List String) (id : String) : List String :=
  match ts.findIdx? (fun storeId => storeId == id) with
  | some idx => ts.eraseIdx idx
  | none => ts

/-- Model of the handler built by `failedHanlderFactory`: when the signal
is not aborted, record the failure and, if the reason is a 429
`RequestError`, set the cooldown flag (and bump the monitor counter). -/
def failedHandler (st : St) (id : String) (is429 : Bool) (reason : Reason) : St :=
  if st.aborted then st
  else
    let st1 := addFailedItems st [(id, reason)]
    if is429 then { st1 with status429 := true, n429 := st1.n429 + 1 } else st1

/-- Removal of a settling task from the in-flight set. -/
def settleRemove (st : St) (serial : Nat) : St :=
  { st with inFlight := st.inFlight.filter (fun u => u.serial != serial) }

/-- The success/failure handler of a settling task, guarded by
`signal.aborted` on the success side as `handleSucccess` is. -/
def settleOutcome (st : St) (artId : String) (ok is429 : Bool) : St :=
  if ok then (if st.aborted then st else addSuccessd st artId)
  else failedHandler st artId is429 (.downloadError is429)

/-- The `finally` handler `removeTask`, which runs on every settlement. -/
def finishTask (st : St) (artId : String) : St :=
  { st with tasks := removeTask st.tasks artId }

/-- Settlement of an in-flight download task: the task leaves the
in-flight set, the success/failure handler runs, then `removeTask` runs
unconditionally (`finally`). A serial not in flight settles nothing. -/
def applySettle (st : St) (serial : Nat) (ok : Bool) (is429 : Bool) : St :=
  match st.inFlight.find? (fun t => t.serial == serial) with
  | none => st
  | some t => finishTask (settleOutcome (settleRemove st serial) t.artId ok is429) t.artId

/-- Start of one `for`-iteration over the available ids (or return to the
outer loop when the batch is exhausted): the cooldown flag is inspected
first. -/
def enterId (st : St) (ids : List String) : St :=
  match ids with
  | [] => { st with pc := .whileAwait }
  | id :: rest =>
    if st.status429 then { st with pc := .cooldownAwait id rest }
    else { st with pc := .parseAwait id rest }

/-- Dispatch of `downloadByArtworkId`: generate the task id, push it onto
`tasks`, add the task to the in-flight set and to `dlPromise`
(`tracked`), then either wait at the concurrency threshold or take the
politeness delay. -/
def dispatchPush (st : St) (id : String) : St :=
  { st with tasks := st.tasks ++ [generateTaskID id st.nextTask],
            inFlight := st.inFlight ++ [Flight.mk st.nextTask id (generateTaskID id st.nextTask)],
            tracked := st.tracked ++ [st.nextTask],
            nextTask := st.nextTask + 1 }

/-- After the push, either wait at the concurrency threshold (`dlPromise`
reached the budget) or take the politeness delay. -/
def dispatchId (st : St) (id : String) (rest : List String) : St :=
  if THRESHOLD ≤ (dispatchPush st id).tracked.length then
    { dispatchPush st id with pc := .thresholdAwait rest }
  else { dispatchPush st id with pc := .politenessAwait rest }

/-- After the per-id failure handler: `signal.throwIfAborted()` throws
when the signal aborted, else the loop continues with the next id. -/
def throwOrContinue (st : St) (rest : List String) : St :=
  if st.aborted then { st with pc := .doneAborted } else enterId st rest

/-- Resolution of the `parseMetaByArtworkId` await: on rejection the
failure handler runs and the id is skipped (`continue`); then
`signal.throwIfAborted()`; then, unless filtering was applied during page
generation, the validity check is awaited, else the download is
dispatched at once. -/
def afterParse (cfg : Cfg) (st : St) (id : String) (rest : List String) : St :=
  match cfg.parse id with
  | .fail is429 => throwOrContinue (failedHandler st id is429 (.parseError is429)) rest
  | .ok =>
    if st.aborted then { st with pc := .doneAborted }
    else if !cfg.filterWhenGenerateIngPage then { st with pc := .validityAwait id rest }
    else dispatchId st id rest

/-- Resolution of the `checkValidity` await: an invalid item is routed to
`excluded` and skipped, a valid one is dispatched. -/
def afterValidity (cfg : Cfg) (st : St) (id : String) (rest : List String) : St :=
  if cfg.valid id then dispatchId st id rest
  else enterId (addExcludedIds st [id]) rest

/-- Routing of the batch's `invalid` ids to the excluded list. -/
def routeInvalid (st : St) (b : Batch) : St :=
  if b.invalid.isEmpty then st else addExcludedIds st b.invalid

/-- Routing of the batch's `unavaliable` ids to the failed list. -/
def routeUnavaliable (st : St) (b : Batch) : St :=
  if b.unavaliable.isEmpty then st
  else addFailedItems st (b.unavaliable.map (fun id => (id, Reason.masked)))

/-- Entry into the per-batch body: empty-batch politeness sleep or the
per-id loop. -/
def batchLoopEntry (st : St) (b : Batch) : St :=
  if b.avaliable.isEmpty then { st with pc := .emptyBatchSleep }
  else enterId st b.avaliable

/-- Processing of one discovery batch, in source order:
`signal.throwIfAborted()`, `setArtworkCount(total)`, route `invalid` to
excluded and `unavaliable` to failed (reason `Masked.`), then either the
empty-batch politeness sleep or the per-id loop. -/
def processBatch (st : St) (b : Batch) : St :=
  if st.aborted then { st with pc := .doneAborted }
  else batchLoopEntry (routeUnavaliable (routeInvalid (setArtworkCount st b.total) b) b) b

/-- Whether some member of the current `dlPromise` batch has settled:
exactly the condition under which `Promise.race([...dlPromise, ...])` can
resolve through a download promise. -/
def trackedSettled (st : St) : Bool :=
  st.tracked.any (fun s => st.inFlight.all (fun t => t.serial != s))

/-- Resolution of the await the control is suspended on. Races against
the completion promise throw when it was rejected (abort) and resolve at
once when it already resolved; the parse and validity awaits are not
raced and always proceed. At the threshold await the race can resolve
only through completion or through a settled member of the tracked batch
(in which case the whole `dlPromise` array is cleared). -/
def fireStep (cfg : Cfg) (st : St) : St :=
  match st.pc with
  | .whileAwait =>
    if st.latched then { st with pc := .doneCompleted }
    else if st.waitRejected then { st with pc := .doneAborted }
    else
      match st.batches with
      | [] => { st with pc := .finalWait }
      | b :: bs => processBatch { st with batches := bs } b
  | .emptyBatchSleep =>
    if st.waitRejected then { st with pc := .doneAborted }
    else { st with pc := .whileAwait }
  | .cooldownAwait id rest =>
    if st.waitRejected then { st with pc := .doneAborted }
    else { st with status429 := false, nCooldown := st.nCooldown + 1,
                   pc := .parseAwait id rest }
  | .parseAwait id rest => afterParse cfg st id rest
  | .validityAwait id rest => afterValidity cfg st id rest
  | .thresholdAwait rest =>
    if st.waitRejected then { st with pc := .doneAborted }
    else if st.latched || trackedSettled st then enterId { st with tracked := [] } rest
    else st
  | .politenessAwait rest =>
    if st.waitRejected then { st with pc := .doneAborted }
    else enterId st rest
  | .finalWait =>
    if st.latched then { st with pc := .doneCompleted }
    else if st.waitRejected then { st with pc := .doneAborted }
    else st
  | .doneCompleted => st
  | .doneAborted => st

/-- An environment event: a download task settles (with success or with a
failure that may carry a 429), the awaited timer/promise fires, or
`abort()` is called. -/
inductive Ev
  | settle (serial : Nat) (ok : Bool) (is429 : Bool)
  | fire
  | abortReq
deriving DecidableEq, Repr

/-- One scheduler step. An abort request sets the signal, lets the abort
listener reject the completion promise (only if it is still pending) and
invoke `onDownloadAbort` with the current `tasks` array. -/
def stepEv (cfg : Cfg) (st : St) (e : Ev) : St :=
  match e with
  | .settle serial ok is429 => applySettle st serial ok is429
  | .abortReq =>
    if st.aborted then st
    else { st with aborted := true,
                   abortCb := some st.tasks,
                   waitRejected := !st.latched }
  | .fire => fireStep cfg st

/-- The state at the start of `dispatchDownload`, right after `reset()`:
`artworkCount` is `null`, all lists and the task bookkeeping are empty,
and control is at the first `generator.next()` await. -/
def initSt (batches : List Batch) : St :=
  { artworkCount := none, successd := [], failed := [], excluded := [],
    tasks := [], inFlight := [], tracked := [], nextTask := 0,
    status429 := false, latched := false, latchSt := none,
    aborted := false, waitRejected := false, abortCb := none,
    batches := batches, pc := .whileAwait, n429 := 0, nCooldown := 0 }

/-- A run: the scheduler's events folded over the machine. -/
def exec (cfg : Cfg) (st : St) (evs : List Ev) : St :=
  evs.foldl (stepEv cfg) st

end BatchDownload

namespace BatchDownload

/-- Control positions from which the loop can still reach a dispatch
without first passing through the threshold wait. -/
def pcOpen : Pc → Bool
  | .thresholdAwait _ => false
  | .finalWait => false
  | .doneCompleted => false
  | .doneAborted => false
  | _ => true

/-- The tracked `dlPromise` batch respects the concurrency budget, and
stays strictly below it wherever another dispatch can still happen. -/
def Inv2 (st : St) : Prop :=
  st.tracked.length ≤ 5 ∧ (pcOpen st.pc = true → st.tracked.length < 5)

/-- Any latched completion snapshot satisfies the completion equality. -/
def latchOk (st : St) : Prop :=
  ∀ c s f e, st.latchSt = some (c, s, f, e) → c = some (s + f + e)

/-- The completed terminal state is reached only after the completion
promise resolved, and any latched snapshot satisfies the equality. -/
def Inv1 (st : St) : Prop :=
  latchOk st ∧ (st.pc = Pc.doneCompleted → st.latched = true)

/-- Cooldowns never outnumber observed 429 signals (the pending flag
accounts for the one signal not yet consumed by a cooldown). -/
def cdInv (st : St) : Prop :=
  st.nCooldown + (if st.status429 then 1 else 0) ≤ st.n429

/-- The cooldown await is only ever entered with the flag set. -/
def Inv4 (st : St) : Prop :=
  cdInv st ∧ ∀ id rest, st.pc = Pc.cooldownAwait id rest → st.status429 = true

theorem checkIfDownloadCompleted_eq (c : Option Nat) (s f e : Nat)
    (h : checkIfDownloadCompleted c s f e = true) : c = some (s + f + e) := by
  cases c with
  | none => exact absurd h (by simp [checkIfDownloadCompleted])
  | some n =>
    have hn : n = s + f + e := by simpa [checkIfDownloadCompleted] using h
    rw [hn]

@[simp] theorem tryLatch_tracked (st : St) : (tryLatch st).tracked = st.tracked := by
  unfold tryLatch; split
  · rfl
  · split <;> rfl

@[simp] theorem tryLatch_pc (st : St) : (tryLatch st).pc = st.pc := by
  unfold tryLatch; split
  · rfl
  · split <;> rfl

@[simp] theorem tryLatch_status429 (st : St) : (tryLatch st).status429 = st.status429 := by
  unfold tryLatch; split
  · rfl
  · split <;> rfl

@[simp] theorem tryLatch_n429 (st : St) : (tryLatch st).n429 = st.n429 := by
  unfold tryLatch; split
  · rfl
  · split <;> rfl

@[simp] theorem tryLatch_nCooldown (st : St) : (tryLatch st).nCooldown = st.nCooldown := by
  unfold tryLatch; split
  · rfl
  · split <;> rfl

theorem tryLatch_latched_mono (st : St) (h : st.latched = true) :
    (tryLatch st).latched = true := by
  unfold tryLatch; split
  · exact h
  · split
    · rfl
    · exact h

theorem tryLatch_latchOk (st : St) (h : latchOk st) : latchOk (tryLatch st) := by
  unfold tryLatch
  split
  · exact h
  · split
    · next hcond =>
      intro c s f e hsome
      simp only [Option.some.injEq, Prod.mk.injEq] at hsome
      obtain ⟨rfl, rfl, rfl, rfl⟩ := hsome
      exact checkIfDownloadCompleted_eq _ _ _ _ hcond
    · exact h

@[simp] theorem addSuccessd_tracked (st : St) (id : String) :
    (addSuccessd st id).tracked = st.tracked := by simp [addSuccessd]

@[simp] theorem addSuccessd_pc (st : St) (id : String) :
    (addSuccessd st id).pc = st.pc := by simp [addSuccessd]

@[simp] theorem addSuccessd_status429 (st : St) (id : String) :
    (addSuccessd st id).status429 = st.status429 := by simp [addSuccessd]

@[simp] theorem addSuccessd_n429 (st : St) (id : String) :
    (addSuccessd st id).n429 = st.n429 := by simp [addSuccessd]

@[simp] theorem addSuccessd_nCooldown (st : St) (id : String) :
    (addSuccessd st id).nCooldown = st.nCooldown := by simp [addSuccessd]

theorem addSuccessd_latched_mono (st : St) (id : String) (h : st.latched = true) :
    (addSuccessd st id).latched = true := tryLatch_latched_mono _ h

theorem addSuccessd_latchOk (st : St) (id : String) (h : latchOk st) :
    latchOk (addSuccessd st id) := tryLatch_latchOk _ h

@[simp] theorem addFailedItems_tracked (st : St) (items : List (String × Reason)) :
    (addFailedItems st items).tracked = st.tracked := by simp [addFailedItems]

@[simp] theorem addFailedItems_pc (st : St) (items : List (String × Reason)) :
    (addFailedItems st items).pc = st.pc := by simp [addFailedItems]

@[simp] theorem addFailedItems_status429 (st : St) (items : List (String × Reason)) :
    (addFailedItems st items).status429 = st.status429 := by simp [addFailedItems]

@[simp] theorem addFailedItems_n429 (st : St) (items : List (String × Reason)) :
    (addFailedItems st items).n429 = st.n429 := by simp [addFailedItems]

@[simp] theorem addFailedItems_nCooldown (st : St) (items : List (String × Reason)) :
    (addFailedItems st items).nCooldown = st.nCooldown := by simp [addFailedItems]

theorem addFailedItems_latched_mono (st : St) (items : List (String × Reason))
    (h : st.latched = true) : (addFailedItems st items).latched = true :=
  tryLatch_latched_mono _ h

theorem addFailedItems_latchOk (st : St) (items : List (String × Reason))
    (h : latchOk st) : latchOk (addFailedItems st items) := tryLatch_latchOk _ h

@[simp] theorem addExcludedIds_tracked (st : St) (ids : List String) :
    (addExcludedIds st ids).tracked = st.tracked := by simp [addExcludedIds]

@[simp] theorem addExcludedIds_pc (st : St) (ids : List String) :
    (addExcludedIds st ids).pc = st.pc := by simp [addExcludedIds]

@[simp] theorem addExcludedIds_status429 (st : St) (ids : List String) :
    (addExcludedIds st ids).status429 = st.status429 := by simp [addExcludedIds]

@[simp] theorem addExcludedIds_n429 (st : St) (ids : List String) :
    (addExcludedIds st ids).n429 = st.n429 := by simp [addExcludedIds]

@[simp] theorem addExcludedIds_nCooldown (st : St) (ids : List String) :
    (addExcludedIds st ids).nCooldown = st.nCooldown := by simp [addExcludedIds]

theorem addExcludedIds_latched_mono (st : St) (ids : List String)
    (h : st.latched = true) : (addExcludedIds st ids).latched = true :=
  tryLatch_latched_mono _ h

theorem addExcludedIds_latchOk (st : St) (ids : List String) (h : latchOk st) :
    latchOk (addExcludedIds st ids) := tryLatch_latchOk _ h

@[simp] theorem setArtworkCount_tracked (st : St) (n : Nat) :
    (setArtworkCount st n).tracked = st.tracked := by simp [setArtworkCount]

@[simp] theorem setArtworkCount_pc (st : St) (n : Nat) :
    (setArtworkCount st n).pc = st.pc := by simp [setArtworkCount]

@[simp] theorem setArtworkCount_status429 (st : St) (n : Nat) :
    (setArtworkCount st n).status429 = st.status429 := by simp [setArtworkCount]

@[simp] theorem setArtworkCount_n429 (st : St) (n : Nat) :
    (setArtworkCount st n).n429 = st.n429 := by simp [setArtworkCount]

@[simp] theorem setArtworkCount_nCooldown (st : St) (n : Nat) :
    (setArtworkCount st n).nCooldown = st.nCooldown := by simp [setArtworkCount]

theorem setArtworkCount_latched_mono (st : St) (n : Nat) (h : st.latched = true) :
    (setArtworkCount st n).latched = true := tryLatch_latched_mono _ h

theorem setArtworkCount_latchOk (st : St) (n : Nat) (h : latchOk st) :
    latchOk (setArtworkCount st n) := tryLatch_latchOk _ h

end BatchDownload

namespace BatchDownload

@[simp] theorem failedHandler_tracked (st : St) (id : String) (is429 : Bool) (r : Reason) :
    (failedHandler st id is429 r).tracked = st.tracked := by
  unfold failedHandler; split
  · rfl
  · split <;> simp

@[simp] theorem failedHandler_pc (st : St) (id : String) (is429 : Bool) (r : Reason) :
    (failedHandler st id is429 r).pc = st.pc := by
  unfold failedHandler; split
  · rfl
  · split <;> simp

@[simp] theorem failedHandler_nCooldown (st : St) (id : String) (is429 : Bool) (r : Reason) :
    (failedHandler st id is429 r).nCooldown = st.nCooldown := by
  unfold failedHandler; split
  · rfl
  · split <;> simp

theorem failedHandler_latched_mono (st : St) (id : String) (is429 : Bool) (r : Reason)
    (h : st.latched = true) : (failedHandler st id is429 r).latched = true := by
  unfold failedHandler; split
  · exact h
  · split
    · simpa using addFailedItems_latched_mono st [(id, r)] h
    · exact addFailedItems_latched_mono st [(id, r)] h

theorem failedHandler_latchOk (st : St) (id : String) (is429 : Bool) (r : Reason)
    (h : latchOk st) : latchOk (failedHandler st id is429 r) := by
  unfold failedHandler; split
  · exact h
  · split
    · intro c s f e hsome
      exact addFailedItems_latchOk st [(id, r)] h c s f e hsome
    · exact addFailedItems_latchOk st [(id, r)] h

theorem failedHandler_status429_mono (st : St) (id : String) (is429 : Bool) (r : Reason)
    (h : st.status429 = true) : (failedHandler st id is429 r).status429 = true := by
  unfold failedHandler; split
  · exact h
  · split
    · rfl
    · simpa using h

theorem failedHandler_cdInv (st : St) (id : String) (is429 : Bool) (r : Reason)
    (h : cdInv st) : cdInv (failedHandler st id is429 r) := by
  unfold failedHandler; split
  · exact h
  · split
    · unfold cdInv at h ⊢
      cases hs : st.status429 <;> simp [hs] at h ⊢ <;> omega
    · unfold cdInv at h ⊢
      simpa using h

@[simp] theorem settleRemove_tracked (st : St) (serial : Nat) :
    (settleRemove st serial).tracked = st.tracked := rfl

@[simp] theorem settleRemove_pc (st : St) (serial : Nat) :
    (settleRemove st serial).pc = st.pc := rfl

@[simp] theorem settleRemove_nCooldown (st : St) (serial : Nat) :
    (settleRemove st serial).nCooldown = st.nCooldown := rfl

@[simp] theorem finishTask_tracked (st : St) (artId : String) :
    (finishTask st artId).tracked = st.tracked := rfl

@[simp] theorem finishTask_pc (st : St) (artId : String) :
    (finishTask st artId).pc = st.pc := rfl

@[simp] theorem finishTask_nCooldown (st : St) (artId : String) :
    (finishTask st artId).nCooldown = st.nCooldown := rfl

@[simp] theorem finishTask_latched (st : St) (artId : String) :
    (finishTask st artId).latched = st.latched := rfl

@[simp] theorem finishTask_latchSt (st : St) (artId : String) :
    (finishTask st artId).latchSt = st.latchSt := rfl

@[simp] theorem finishTask_status429 (st : St) (artId : String) :
    (finishTask st artId).status429 = st.status429 := rfl

@[simp] theorem finishTask_n429 (st : St) (artId : String) :
    (finishTask st artId).n429 = st.n429 := rfl

@[simp] theorem settleOutcome_tracked (st : St) (artId : String) (ok is429 : Bool) :
    (settleOutcome st artId ok is429).tracked = st.tracked := by
  unfold settleOutcome; split
  · split <;> simp
  · simp

@[simp] theorem settleOutcome_pc (st : St) (artId : String) (ok is429 : Bool) :
    (settleOutcome st artId ok is429).pc = st.pc := by
  unfold settleOutcome; split
  · split <;> simp
  · simp

@[simp] theorem settleOutcome_nCooldown (st : St) (artId : String) (ok is429 : Bool) :
    (settleOutcome st artId ok is429).nCooldown = st.nCooldown := by
  unfold settleOutcome; split
  · split <;> simp
  · simp

theorem settleOutcome_latched_mono (st : St) (artId : String) (ok is429 : Bool)
    (h : st.latched = true) : (settleOutcome st artId ok is429).latched = true := by
  unfold settleOutcome; split
  · split
    · exact h
    · exact addSuccessd_latched_mono _ _ h
  · exact failedHandler_latched_mono _ _ _ _ h

theorem settleOutcome_latchOk (st : St) (artId : String) (ok is429 : Bool)
    (h : latchOk st) : latchOk (settleOutcome st artId ok is429) := by
  unfold settleOutcome; split
  · split
    · exact h
    · exact addSuccessd_latchOk _ _ h
  · exact failedHandler_latchOk _ _ _ _ h

theorem settleOutcome_status429_mono (st : St) (artId : String) (ok is429 : Bool)
    (h : st.status429 = true) : (settleOutcome st artId ok is429).status429 = true := by
  unfold settleOutcome; split
  · split
    · exact h
    · simpa using h
  · exact failedHandler_status429_mono _ _ _ _ h

theorem settleOutcome_cdInv (st : St) (artId : String) (ok is429 : Bool)
    (h : cdInv st) : cdInv (settleOutcome st artId ok is429) := by
  unfold settleOutcome; split
  · split
    · exact h
    · unfold cdInv at h ⊢; simpa using h
  · exact failedHandler_cdInv _ _ _ _ h

@[simp] theorem applySettle_tracked (st : St) (serial : Nat) (ok is429 : Bool) :
    (applySettle st serial ok is429).tracked = st.tracked := by
  unfold applySettle; split
  · rfl
  · simp

@[simp] theorem applySettle_pc (st : St) (serial : Nat) (ok is429 : Bool) :
    (applySettle st serial ok is429).pc = st.pc := by
  unfold applySettle; split
  · rfl
  · simp

@[simp] theorem applySettle_nCooldown (st : St) (serial : Nat) (ok is429 : Bool) :
    (applySettle st serial ok is429).nCooldown = st.nCooldown := by
  unfold applySettle; split
  · rfl
  · simp

theorem applySettle_latched_mono (st : St) (serial : Nat) (ok is429 : Bool)
    (h : st.latched = true) : (applySettle st serial ok is429).latched = true := by
  unfold applySettle; split
  · exact h
  · next t _ =>
    rw [finishTask_latched]
    exact settleOutcome_latched_mono _ _ _ _ h

theorem applySettle_latchOk (st : St) (serial : Nat) (ok is429 : Bool)
    (h : latchOk st) : latchOk (applySettle st serial ok is429) := by
  unfold applySettle; split
  · exact h
  · next t _ =>
    intro c s f e hsome
    rw [finishTask_latchSt] at hsome
    exact settleOutcome_latchOk (settleRemove st serial) t.artId ok is429 h c s f e hsome

theorem applySettle_status429_mono (st : St) (serial : Nat) (ok is429 : Bool)
    (h : st.status429 = true) : (applySettle st serial ok is429).status429 = true := by
  unfold applySettle; split
  · exact h
  · next t _ =>
    rw [finishTask_status429]
    exact settleOutcome_status429_mono _ _ _ _ h

theorem applySettle_cdInv (st : St) (serial : Nat) (ok is429 : Bool)
    (h : cdInv st) : cdInv (applySettle st serial ok is429) := by
  unfold applySettle; split
  · exact h
  · next t _ =>
    have h2 := settleOutcome_cdInv (settleRemove st serial) t.artId ok is429 h
    unfold cdInv at h2 ⊢
    simpa using h2

end BatchDownload

namespace BatchDownload

theorem latchOk_of_eq {a b : St} (hst : a.latchSt = b.latchSt) (h : latchOk b) :
    latchOk a := fun c s f e hs => h c s f e (hst ▸ hs)

theorem cdInv_of_eq {a b : St} (h1 : a.nCooldown = b.nCooldown)
    (h2 : a.status429 = b.status429) (h3 : a.n429 = b.n429) (h : cdInv b) : cdInv a := by
  unfold cdInv at *
  rw [h1, h2, h3]
  exact h

@[simp] theorem enterId_tracked (st : St) (ids : List String) :
    (enterId st ids).tracked = st.tracked := by
  unfold enterId
  split
  · rfl
  · split <;> rfl

@[simp] theorem enterId_status429 (st : St) (ids : List String) :
    (enterId st ids).status429 = st.status429 := by
  unfold enterId
  split
  · rfl
  · split <;> rfl

@[simp] theorem enterId_n429 (st : St) (ids : List String) :
    (enterId st ids).n429 = st.n429 := by
  unfold enterId
  split
  · rfl
  · split <;> rfl

@[simp] theorem enterId_nCooldown (st : St) (ids : List String) :
    (enterId st ids).nCooldown = st.nCooldown := by
  unfold enterId
  split
  · rfl
  · split <;> rfl

@[simp] theorem enterId_latched (st : St) (ids : List String) :
    (enterId st ids).latched = st.latched := by
  unfold enterId
  split
  · rfl
  · split <;> rfl

@[simp] theorem enterId_latchSt (st : St) (ids : List String) :
    (enterId st ids).latchSt = st.latchSt := by
  unfold enterId
  split
  · rfl
  · split <;> rfl

theorem enterId_pc_ne (st : St) (ids : List String) :
    (enterId st ids).pc ≠ Pc.doneCompleted := by
  unfold enterId
  split
  · simp
  · split <;> simp

theorem enterId_cooldown_flag (st : St) (ids : List String) (id : String)
    (rest : List String) (h : (enterId st ids).pc = Pc.cooldownAwait id rest) :
    (enterId st ids).status429 = true := by
  cases ids with
  | nil => simp [enterId] at h
  | cons i r =>
    by_cases hflag : st.status429 = true
    · simp [enterId, hflag]
    · simp [enterId, hflag] at h

@[simp] theorem dispatchPush_tracked (st : St) (id : String) :
    (dispatchPush st id).tracked = st.tracked ++ [st.nextTask] := rfl

@[simp] theorem dispatchId_status429 (st : St) (id : String) (rest : List String) :
    (dispatchId st id rest).status429 = st.status429 := by
  unfold dispatchId; split <;> rfl

@[simp] theorem dispatchId_n429 (st : St) (id : String) (rest : List String) :
    (dispatchId st id rest).n429 = st.n429 := by
  unfold dispatchId; split <;> rfl

@[simp] theorem dispatchId_nCooldown (st : St) (id : String) (rest : List String) :
    (dispatchId st id rest).nCooldown = st.nCooldown := by
  unfold dispatchId; split <;> rfl

@[simp] theorem dispatchId_latched (st : St) (id : String) (rest : List String) :
    (dispatchId st id rest).latched = st.latched := by
  unfold dispatchId; split <;> rfl

@[simp] theorem dispatchId_latchSt (st : St) (id : String) (rest : List String) :
    (dispatchId st id rest).latchSt = st.latchSt := by
  unfold dispatchId; split <;> rfl

theorem dispatchId_pc_cases (st : St) (id : String) (rest : List String) :
    (dispatchId st id rest).pc = Pc.thresholdAwait rest ∨
    (dispatchId st id rest).pc = Pc.politenessAwait rest := by
  unfold dispatchId; split
  · exact Or.inl rfl
  · exact Or.inr rfl

theorem dispatchId_pc_ne (st : St) (id : String) (rest : List String) :
    (dispatchId st id rest).pc ≠ Pc.doneCompleted := by
  rcases dispatchId_pc_cases st id rest with h | h <;> rw [h] <;> simp

theorem dispatchId_cooldown_flag (st : St) (id : String) (rest : List String)
    (a : String) (b : List String)
    (h : (dispatchId st id rest).pc = Pc.cooldownAwait a b) :
    (dispatchId st id rest).status429 = true := by
  rcases dispatchId_pc_cases st id rest with hpc | hpc <;> rw [hpc] at h <;> simp at h

theorem dispatchId_Inv2 (st : St) (id : String) (rest : List String)
    (h : st.tracked.length < 5) : Inv2 (dispatchId st id rest) := by
  unfold dispatchId
  split
  · constructor
    · simp
      omega
    · intro hop
      simp [pcOpen] at hop
  · next hlt =>
    simp [THRESHOLD] at hlt
    constructor
    · simp
      omega
    · intro _
      simp
      omega

@[simp] theorem throwOrContinue_tracked (st : St) (rest : List String) :
    (throwOrContinue st rest).tracked = st.tracked := by
  unfold throwOrContinue; split
  · rfl
  · simp

@[simp] theorem throwOrContinue_status429 (st : St) (rest : List String) :
    (throwOrContinue st rest).status429 = st.status429 := by
  unfold throwOrContinue; split
  · rfl
  · simp

@[simp] theorem throwOrContinue_n429 (st : St) (rest : List String) :
    (throwOrContinue st rest).n429 = st.n429 := by
  unfold throwOrContinue; split
  · rfl
  · simp

@[simp] theorem throwOrContinue_nCooldown (st : St) (rest : List String) :
    (throwOrContinue st rest).nCooldown = st.nCooldown := by
  unfold throwOrContinue; split
  · rfl
  · simp

@[simp] theorem throwOrContinue_latched (st : St) (rest : List String) :
    (throwOrContinue st rest).latched = st.latched := by
  unfold throwOrContinue; split
  · rfl
  · simp

@[simp] theorem throwOrContinue_latchSt (st : St) (rest : List String) :
    (throwOrContinue st rest).latchSt = st.latchSt := by
  unfold throwOrContinue; split
  · rfl
  · simp

theorem throwOrContinue_pc_ne (st : St) (rest : List String) :
    (throwOrContinue st rest).pc ≠ Pc.doneCompleted := by
  unfold throwOrContinue; split
  · simp
  · exact enterId_pc_ne st rest

theorem throwOrContinue_cooldown_flag (st : St) (rest : List String) (a : String)
    (b : List String) (h : (throwOrContinue st rest).pc = Pc.cooldownAwait a b) :
    (throwOrContinue st rest).status429 = true := by
  unfold throwOrContinue at h ⊢
  split at h
  · simp at h
  · next hab =>
    simp only [if_neg hab]
    exact enterId_cooldown_flag st rest a b h

end BatchDownload

namespace BatchDownload

theorem afterParse_Inv2 (cfg : Cfg) (st : St) (id : String) (rest : List String)
    (h : st.tracked.length < 5) : Inv2 (afterParse cfg st id rest) := by
  unfold afterParse
  split
  · constructor
    · simp
      omega
    · intro _
      simp
      omega
  · split
    · constructor
      · simp
        omega
      · intro hop
        simp [pcOpen] at hop
    · split
      · constructor
        · simp
          omega
        · intro _
          simp
          omega
      · exact dispatchId_Inv2 st id rest h

theorem afterParse_latchOk (cfg : Cfg) (st : St) (id : String) (rest : List String)
    (h : latchOk st) : latchOk (afterParse cfg st id rest) := by
  unfold afterParse
  split
  · exact latchOk_of_eq (throwOrContinue_latchSt _ _) (failedHandler_latchOk _ _ _ _ h)
  · split
    · exact h
    · split
      · exact h
      · exact latchOk_of_eq (dispatchId_latchSt _ _ _) h

theorem afterParse_cdInv (cfg : Cfg) (st : St) (id : String) (rest : List String)
    (h : cdInv st) : cdInv (afterParse cfg st id rest) := by
  unfold afterParse
  split
  · exact cdInv_of_eq (throwOrContinue_nCooldown _ _) (throwOrContinue_status429 _ _)
      (throwOrContinue_n429 _ _) (failedHandler_cdInv _ _ _ _ h)
  · split
    · exact h
    · split
      · exact h
      · exact cdInv_of_eq (dispatchId_nCooldown _ _ _) (dispatchId_status429 _ _ _)
          (dispatchId_n429 _ _ _) h

theorem afterParse_pc_ne (cfg : Cfg) (st : St) (id : String) (rest : List String) :
    (afterParse cfg st id rest).pc ≠ Pc.doneCompleted := by
  unfold afterParse
  split
  · exact throwOrContinue_pc_ne _ _
  · split
    · simp
    · split
      · simp
      · exact dispatchId_pc_ne _ _ _

theorem afterParse_cooldown_flag (cfg : Cfg) (st : St) (id : String)
    (rest : List String) (a : String) (b : List String)
    (h : (afterParse cfg st id rest).pc = Pc.cooldownAwait a b) :
    (afterParse cfg st id rest).status429 = true := by
  cases hp : cfg.parse id with
  | fail is429 =>
    simp only [afterParse, hp] at h ⊢
    exact throwOrContinue_cooldown_flag _ _ _ _ h
  | ok =>
    simp only [afterParse, hp] at h ⊢
    by_cases hab : st.aborted = true
    · rw [if_pos hab] at h
      simp at h
    · rw [if_neg hab] at h ⊢
      by_cases hneg : (!cfg.filterWhenGenerateIngPage) = true
      · rw [if_pos hneg] at h
        simp at h
      · rw [if_neg hneg] at h ⊢
        exact dispatchId_cooldown_flag _ _ _ _ _ h

theorem afterValidity_Inv2 (cfg : Cfg) (st : St) (id : String) (rest : List String)
    (h : st.tracked.length < 5) : Inv2 (afterValidity cfg st id rest) := by
  unfold afterValidity
  split
  · exact dispatchId_Inv2 st id rest h
  · constructor
    · simp
      omega
    · intro _
      simp
      omega

theorem afterValidity_latchOk (cfg : Cfg) (st : St) (id : String) (rest : List String)
    (h : latchOk st) : latchOk (afterValidity cfg st id rest) := by
  unfold afterValidity
  split
  · exact latchOk_of_eq (dispatchId_latchSt _ _ _) h
  · exact latchOk_of_eq (enterId_latchSt _ _) (addExcludedIds_latchOk st [id] h)

theorem afterValidity_cdInv (cfg : Cfg) (st : St) (id : String) (rest : List String)
    (h : cdInv st) : cdInv (afterValidity cfg st id rest) := by
  unfold afterValidity
  split
  · exact cdInv_of_eq (dispatchId_nCooldown _ _ _) (dispatchId_status429 _ _ _)
      (dispatchId_n429 _ _ _) h
  · exact cdInv_of_eq (enterId_nCooldown _ _) (enterId_status429 _ _) (enterId_n429 _ _)
      (cdInv_of_eq (addExcludedIds_nCooldown _ _) (addExcludedIds_status429 _ _)
        (addExcludedIds_n429 _ _) h)

theorem afterValidity_pc_ne (cfg : Cfg) (st : St) (id : String) (rest : List String) :
    (afterValidity cfg st id rest).pc ≠ Pc.doneCompleted := by
  unfold afterValidity
  split
  · exact dispatchId_pc_ne _ _ _
  · exact enterId_pc_ne _ _

theorem afterValidity_cooldown_flag (cfg : Cfg) (st : St) (id : String)
    (rest : List String) (a : String) (b : List String)
    (h : (afterValidity cfg st id rest).pc = Pc.cooldownAwait a b) :
    (afterValidity cfg st id rest).status429 = true := by
  by_cases hv : cfg.valid id = true
  · simp only [afterValidity, if_pos hv] at h ⊢
    exact dispatchId_cooldown_flag _ _ _ _ _ h
  · simp only [afterValidity, if_neg hv] at h ⊢
    exact enterId_cooldown_flag _ _ _ _ h

@[simp] theorem routeInvalid_tracked (st : St) (b : Batch) :
    (routeInvalid st b).tracked = st.tracked := by
  unfold routeInvalid; split <;> simp

@[simp] theorem routeInvalid_status429 (st : St) (b : Batch) :
    (routeInvalid st b).status429 = st.status429 := by
  unfold routeInvalid; split <;> simp

@[simp] theorem routeInvalid_n429 (st : St) (b : Batch) :
    (routeInvalid st b).n429 = st.n429 := by
  unfold routeInvalid; split <;> simp

@[simp] theorem routeInvalid_nCooldown (st : St) (b : Batch) :
    (routeInvalid st b).nCooldown = st.nCooldown := by
  unfold routeInvalid; split <;> simp

theorem routeInvalid_latchOk (st : St) (b : Batch) (h : latchOk st) :
    latchOk (routeInvalid st b) := by
  unfold routeInvalid; split
  · exact h
  · exact addExcludedIds_latchOk _ _ h

@[simp] theorem routeUnavaliable_tracked (st : St) (b : Batch) :
    (routeUnavaliable st b).tracked = st.tracked := by
  unfold routeUnavaliable; split <;> simp

@[simp] theorem routeUnavaliable_status429 (st : St) (b : Batch) :
    (routeUnavaliable st b).status429 = st.status429 := by
  unfold routeUnavaliable; split <;> simp

@[simp] theorem routeUnavaliable_n429 (st : St) (b : Batch) :
    (routeUnavaliable st b).n429 = st.n429 := by
  unfold routeUnavaliable; split <;> simp

@[simp] theorem routeUnavaliable_nCooldown (st : St) (b : Batch) :
    (routeUnavaliable st b).nCooldown = st.nCooldown := by
  unfold routeUnavaliable; split <;> simp

theorem routeUnavaliable_latchOk (st : St) (b : Batch) (h : latchOk st) :
    latchOk (routeUnavaliable st b) := by
  unfold routeUnavaliable; split
  · exact h
  · exact addFailedItems_latchOk _ _ h

theorem batchLoopEntry_Inv2 (st : St) (b : Batch) (h : st.tracked.length < 5) :
    Inv2 (batchLoopEntry st b) := by
  unfold batchLoopEntry
  split
  · constructor
    · simp
      omega
    · intro _
      simp
      omega
  · constructor
    · simp
      omega
    · intro _
      simp
      omega

theorem batchLoopEntry_latchOk (st : St) (b : Batch) (h : latchOk st) :
    latchOk (batchLoopEntry st b) := by
  unfold batchLoopEntry
  split
  · exact h
  · exact latchOk_of_eq (enterId_latchSt _ _) h

theorem batchLoopEntry_cdInv (st : St) (b : Batch) (h : cdInv st) :
    cdInv (batchLoopEntry st b) := by
  unfold batchLoopEntry
  split
  · exact h
  · exact cdInv_of_eq (enterId_nCooldown _ _) (enterId_status429 _ _) (enterId_n429 _ _) h

theorem batchLoopEntry_pc_ne (st : St) (b : Batch) :
    (batchLoopEntry st b).pc ≠ Pc.doneCompleted := by
  unfold batchLoopEntry
  split
  · simp
  · exact enterId_pc_ne _ _

theorem batchLoopEntry_cooldown_flag (st : St) (b : Batch) (a : String)
    (r : List String) (h : (batchLoopEntry st b).pc = Pc.cooldownAwait a r) :
    (batchLoopEntry st b).status429 = true := by
  by_cases hav : b.avaliable.isEmpty = true
  · simp only [batchLoopEntry, if_pos hav] at h
    simp at h
  · simp only [batchLoopEntry, if_neg hav] at h ⊢
    exact enterId_cooldown_flag _ _ _ _ h

theorem processBatch_Inv2 (st : St) (b : Batch) (h : st.tracked.length < 5) :
    Inv2 (processBatch st b) := by
  unfold processBatch
  split
  · constructor
    · simp
      omega
    · intro hop
      simp [pcOpen] at hop
  · apply batchLoopEntry_Inv2
    simp
    omega

theorem processBatch_latchOk (st : St) (b : Batch) (h : latchOk st) :
    latchOk (processBatch st b) := by
  unfold processBatch
  split
  · exact h
  · exact batchLoopEntry_latchOk _ _ (routeUnavaliable_latchOk _ _
      (routeInvalid_latchOk _ _ (setArtworkCount_latchOk _ _ h)))

theorem processBatch_cdInv (st : St) (b : Batch) (h : cdInv st) :
    cdInv (processBatch st b) := by
  unfold processBatch
  split
  · exact h
  · apply batchLoopEntry_cdInv
    refine cdInv_of_eq ?_ ?_ ?_ h <;> simp

theorem processBatch_pc_ne (st : St) (b : Batch) :
    (processBatch st b).pc ≠ Pc.doneCompleted := by
  unfold processBatch
  split
  · simp
  · exact batchLoopEntry_pc_ne _ _

theorem processBatch_cooldown_flag (st : St) (b : Batch) (a : String)
    (r : List String) (h : (processBatch st b).pc = Pc.cooldownAwait a r) :
    (processBatch st b).status429 = true := by
  by_cases hab : st.aborted = true
  · simp only [processBatch, if_pos hab] at h
    simp at h
  · simp only [processBatch, if_neg hab] at h ⊢
    exact batchLoopEntry_cooldown_flag _ _ _ _ h

end BatchDownload

namespace BatchDownload

theorem exec_inv (cfg : Cfg) (P : St → Prop)
    (hstep : ∀ st e, P st → P (stepEv cfg st e)) :
    ∀ (evs : List Ev) (st : St), P st → P (exec cfg st evs) := by
  intro evs
  induction evs with
  | nil => intro st h; exact h
  | cons e rest ih => intro st h; exact ih (stepEv cfg st e) (hstep st e h)

theorem stepEv_Inv2 (cfg : Cfg) (st : St) (e : Ev) (h : Inv2 st) :
    Inv2 (stepEv cfg st e) := by
  obtain ⟨h1, h2⟩ := h
  cases e with
  | settle serial ok is429 =>
    simp only [stepEv]
    constructor
    · rw [applySettle_tracked]
      exact h1
    · rw [applySettle_tracked, applySettle_pc]
      exact h2
  | abortReq =>
    simp only [stepEv]
    split
    · exact ⟨h1, h2⟩
    · exact ⟨h1, h2⟩
  | fire =>
    simp only [stepEv]
    unfold fireStep
    split
    · next heq =>
      have hlt : st.tracked.length < 5 := h2 (by rw [heq]; rfl)
      split
      · exact ⟨h1, fun hop => by simp [pcOpen] at hop⟩
      · split
        · exact ⟨h1, fun hop => by simp [pcOpen] at hop⟩
        · split
          · exact ⟨h1, fun hop => by simp [pcOpen] at hop⟩
          · exact processBatch_Inv2 _ _ hlt
    · next heq =>
      have hlt : st.tracked.length < 5 := h2 (by rw [heq]; rfl)
      split
      · exact ⟨h1, fun hop => by simp [pcOpen] at hop⟩
      · exact ⟨h1, fun _ => hlt⟩
    · next id0 rest0 heq =>
      have hlt : st.tracked.length < 5 := h2 (by rw [heq]; rfl)
      split
      · exact ⟨h1, fun hop => by simp [pcOpen] at hop⟩
      · exact ⟨h1, fun _ => hlt⟩
    · next id0 rest0 heq =>
      exact afterParse_Inv2 cfg st id0 rest0 (h2 (by rw [heq]; rfl))
    · next id0 rest0 heq =>
      exact afterValidity_Inv2 cfg st id0 rest0 (h2 (by rw [heq]; rfl))
    · next rest0 heq =>
      split
      · exact ⟨h1, fun hop => by simp [pcOpen] at hop⟩
      · split
        · constructor
          · simp
          · intro _
            simp
        · exact ⟨h1, h2⟩
    · next rest0 heq =>
      have hlt : st.tracked.length < 5 := h2 (by rw [heq]; rfl)
      split
      · exact ⟨h1, fun hop => by simp [pcOpen] at hop⟩
      · constructor
        · rw [enterId_tracked]
          exact h1
        · intro _
          rw [enterId_tracked]
          exact hlt
    · split
      · exact ⟨h1, fun hop => by simp [pcOpen] at hop⟩
      · split
        · exact ⟨h1, fun hop => by simp [pcOpen] at hop⟩
        · exact ⟨h1, h2⟩
    · exact ⟨h1, h2⟩
    · exact ⟨h1, h2⟩

theorem stepEv_Inv1 (cfg : Cfg) (st : St) (e : Ev) (h : Inv1 st) :
    Inv1 (stepEv cfg st e) := by
  obtain ⟨hok, hdc⟩ := h
  cases e with
  | settle serial ok is429 =>
    simp only [stepEv]
    constructor
    · exact applySettle_latchOk _ _ _ _ hok
    · intro hpc
      rw [applySettle_pc] at hpc
      exact applySettle_latched_mono _ _ _ _ (hdc hpc)
  | abortReq =>
    simp only [stepEv]
    split
    · exact ⟨hok, hdc⟩
    · exact ⟨hok, hdc⟩
  | fire =>
    simp only [stepEv]
    unfold fireStep
    split
    · split
      · next hl => exact ⟨hok, fun _ => hl⟩
      · split
        · exact ⟨hok, fun hpc => by simp at hpc⟩
        · split
          · exact ⟨hok, fun hpc => by simp at hpc⟩
          · exact ⟨processBatch_latchOk _ _ hok,
                   fun hpc => absurd hpc (processBatch_pc_ne _ _)⟩
    · split
      · exact ⟨hok, fun hpc => by simp at hpc⟩
      · exact ⟨hok, fun hpc => by simp at hpc⟩
    · split
      · exact ⟨hok, fun hpc => by simp at hpc⟩
      · exact ⟨hok, fun hpc => by simp at hpc⟩
    · next id0 rest0 heq =>
      exact ⟨afterParse_latchOk _ _ _ _ hok,
             fun hpc => absurd hpc (afterParse_pc_ne _ _ _ _)⟩
    · next id0 rest0 heq =>
      exact ⟨afterValidity_latchOk _ _ _ _ hok,
             fun hpc => absurd hpc (afterValidity_pc_ne _ _ _ _)⟩
    · split
      · exact ⟨hok, fun hpc => by simp at hpc⟩
      · split
        · exact ⟨latchOk_of_eq (enterId_latchSt _ _) hok,
                 fun hpc => absurd hpc (enterId_pc_ne _ _)⟩
        · exact ⟨hok, hdc⟩
    · split
      · exact ⟨hok, fun hpc => by simp at hpc⟩
      · exact ⟨latchOk_of_eq (enterId_latchSt _ _) hok,
               fun hpc => absurd hpc (enterId_pc_ne _ _)⟩
    · split
      · next hl => exact ⟨hok, fun _ => hl⟩
      · split
        · exact ⟨hok, fun hpc => by simp at hpc⟩
        · exact ⟨hok, hdc⟩
    · exact ⟨hok, hdc⟩
    · exact ⟨hok, hdc⟩

theorem stepEv_Inv4 (cfg : Cfg) (st : St) (e : Ev) (h : Inv4 st) :
    Inv4 (stepEv cfg st e) := by
  obtain ⟨hcd, hcf⟩ := h
  cases e with
  | settle serial ok is429 =>
    simp only [stepEv]
    constructor
    · exact applySettle_cdInv _ _ _ _ hcd
    · intro id rest hpc
      rw [applySettle_pc] at hpc
      exact applySettle_status429_mono _ _ _ _ (hcf id rest hpc)
  | abortReq =>
    simp only [stepEv]
    split
    · exact ⟨hcd, hcf⟩
    · exact ⟨hcd, hcf⟩
  | fire =>
    simp only [stepEv]
    unfold fireStep
    split
    · split
      · exact ⟨hcd, fun id rest hpc => by simp at hpc⟩
      · split
        · exact ⟨hcd, fun id rest hpc => by simp at hpc⟩
        · split
          · exact ⟨hcd, fun id rest hpc => by simp at hpc⟩
          · exact ⟨processBatch_cdInv _ _ hcd,
                   fun id rest hpc => processBatch_cooldown_flag _ _ _ _ hpc⟩
    · split
      · exact ⟨hcd, fun id rest hpc => by simp at hpc⟩
      · exact ⟨hcd, fun id rest hpc => by simp at hpc⟩
    · next id0 rest0 heq =>
      split
      · exact ⟨hcd, fun id rest hpc => by simp at hpc⟩
      · constructor
        · have hflag : st.status429 = true := hcf id0 rest0 heq
          unfold cdInv at hcd ⊢
          simp only [hflag, if_pos] at hcd
          simp
          omega
        · intro id rest hpc
          simp at hpc
    · next id0 rest0 heq =>
      exact ⟨afterParse_cdInv _ _ _ _ hcd,
             fun id rest hpc => afterParse_cooldown_flag _ _ _ _ _ _ hpc⟩
    · next id0 rest0 heq =>
      exact ⟨afterValidity_cdInv _ _ _ _ hcd,
             fun id rest hpc => afterValidity_cooldown_flag _ _ _ _ _ _ hpc⟩
    · split
      · exact ⟨hcd, fun id rest hpc => by simp at hpc⟩
      · split
        · exact ⟨cdInv_of_eq (enterId_nCooldown _ _) (enterId_status429 _ _)
                   (enterId_n429 _ _) hcd,
                 fun id rest hpc => enterId_cooldown_flag _ _ _ _ hpc⟩
        · exact ⟨hcd, hcf⟩
    · split
      · exact ⟨hcd, fun id rest hpc => by simp at hpc⟩
      · exact ⟨cdInv_of_eq (enterId_nCooldown _ _) (enterId_status429 _ _)
                 (enterId_n429 _ _) hcd,
               fun id rest hpc => enterId_cooldown_flag _ _ _ _ hpc⟩
    · split
      · exact ⟨hcd, fun id rest hpc => by simp at hpc⟩
      · split
        · exact ⟨hcd, fun id rest hpc => by simp at hpc⟩
        · exact ⟨hcd, hcf⟩
    · exact ⟨hcd, hcf⟩
    · exact ⟨hcd, hcf⟩

theorem exec_Inv2 (cfg : Cfg) (batches : List Batch) (evs : List Ev) :
    Inv2 (exec cfg (initSt batches) evs) := by
  apply exec_inv cfg Inv2 (stepEv_Inv2 cfg)
  constructor
  · simp [initSt]
  · intro _
    simp [initSt]

theorem exec_Inv1 (cfg : Cfg) (batches : List Batch) (evs : List Ev) :
    Inv1 (exec cfg (initSt batches) evs) := by
  apply exec_inv cfg Inv1 (stepEv_Inv1 cfg)
  constructor
  · intro c s f e hs
    simp [initSt] at hs
  · intro hpc
    simp [initSt] at hpc

theorem exec_Inv4 (cfg : Cfg) (batches : List Batch) (evs : List Ev) :
    Inv4 (exec cfg (initSt batches) evs) := by
  apply exec_inv cfg Inv4 (stepEv_Inv4 cfg)
  constructor
  · unfold cdInv
    simp [initSt]
  · intro id rest hpc
    simp [initSt] at hpc

end BatchDownload

namespace BatchDownload

/-- A concrete run configuration for the counterexample executions:
inline filtering (the generator already applied the validity check),
every parse succeeds, every id is valid. -/
def cfgEx : Cfg := ⟨true, fun _ => .ok, fun _ => true⟩

/-- The C1 counterexample batch: total 0 with one invalid id. -/
def batC1 : Batch := ⟨0, 1, [], ["1"], []⟩

/-- The C2 counterexample batch: seven available ids, total 100. -/
def batC2 : Batch := ⟨100, 1, ["a1", "a2", "a3", "a4", "a5", "a6", "a7"], [], []⟩

/-- The C2 counterexample schedule: dispatch five tasks, settle only the
first, let the threshold race resolve, dispatch two more. -/
def evsC2 : List Ev :=
  [.fire, .fire, .fire, .fire, .fire, .fire, .fire, .fire, .fire, .fire,
   .settle 0 true false, .fire, .fire, .fire, .fire]

/-- The C3 counterexample batch: one available id, total 3. -/
def batC3 : Batch := ⟨3, 1, ["a"], [], []⟩

/-- The C4 counterexample batch: three available ids, total 100. -/
def batC4 : Batch := ⟨100, 1, ["a", "b", "c"], [], []⟩

/-- The C4 counterexample schedule: dispatch tasks for `a` and `b`, have
both fail with HTTP 429 before the politeness delay of `b` resolves, then
start the iteration for `c`. -/
def evsC4 : List Ev :=
  [.fire, .fire, .fire, .fire, .settle 0 false true, .settle 1 false true, .fire, .fire]

end BatchDownload

/-- Counterexample to claim C1: a run over the single batch
`{total: 0, avaliable: [], invalid: ["1"], unavaliable: []}` reaches the
completed state (the completion promise resolves when `setArtworkCount(0)`
runs, before the batch's invalid id is routed to `excluded`), yet its
final state has `artworkCount = 0` while the three lists hold 1 item, so
the final count does not equal the sum. -/
theorem C1_counterexample :
    (BatchDownload.exec BatchDownload.cfgEx (BatchDownload.initSt [BatchDownload.batC1])
        [.fire, .fire, .fire]).pc = BatchDownload.Pc.doneCompleted ∧
    (BatchDownload.exec BatchDownload.cfgEx (BatchDownload.initSt [BatchDownload.batC1])
        [.fire, .fire, .fire]).artworkCount = some 0 ∧
    (BatchDownload.exec BatchDownload.cfgEx (BatchDownload.initSt [BatchDownload.batC1])
        [.fire, .fire, .fire]).successd.length +
      (BatchDownload.exec BatchDownload.cfgEx (BatchDownload.initSt [BatchDownload.batC1])
        [.fire, .fire, .fire]).failed.length +
      (BatchDownload.exec BatchDownload.cfgEx (BatchDownload.initSt [BatchDownload.batC1])
        [.fire, .fire, .fire]).excluded.length = 1 :=
  ⟨rfl, rfl, rfl⟩

/-- Claim C1 as amended: the run-completion condition is exactly
`artworkCount ≠ null ∧ artworkCount = |successd| + |failed| + |excluded|`
(the `checkIfDownloadCompleted` derived store); the completion promise
resolves only in a state satisfying it — the latched snapshot always
satisfies the equality — and a run reaches the completed terminal state
only after that resolution. The final state of a completed run can
nevertheless violate the equality, because `artworkCount` is updated
before invalid/unavailable routing and in-flight tasks settling after the
latch still append to the lists. -/
theorem C1_amended (cfg : BatchDownload.Cfg) (batches : List BatchDownload.Batch)
    (evs : List BatchDownload.Ev) :
    (∀ (c : Option Nat) (s f e : Nat),
      (BatchDownload.exec cfg (BatchDownload.initSt batches) evs).latchSt = some (c, s, f, e) →
        c = some (s + f + e)) ∧
    ((BatchDownload.exec cfg (BatchDownload.initSt batches) evs).pc
        = BatchDownload.Pc.doneCompleted →
      (BatchDownload.exec cfg (BatchDownload.initSt batches) evs).latched = true) ∧
    (∀ (c : Option Nat) (s f e : Nat),
      BatchDownload.checkIfDownloadCompleted c s f e = true ↔ c = some (s + f + e)) := by
  refine ⟨(BatchDownload.exec_Inv1 cfg batches evs).1,
          (BatchDownload.exec_Inv1 cfg batches evs).2, ?_⟩
  intro c s f e
  constructor
  · exact BatchDownload.checkIfDownloadCompleted_eq c s f e
  · rintro rfl
    simp [BatchDownload.checkIfDownloadCompleted]

/-- Witness for C1 as amended: the counterexample run latches the
snapshot `(some 0, 0, 0, 0)`, which satisfies the equality, and its
completed terminal state indeed has the promise resolved. -/
theorem C1_witness :
    ((BatchDownload.exec BatchDownload.cfgEx (BatchDownload.initSt [BatchDownload.batC1])
        [.fire, .fire, .fire]).latchSt = some (some 0, 0, 0, 0) ∧
      (some 0 : Option Nat) = some (0 + 0 + 0)) ∧
    ((BatchDownload.exec BatchDownload.cfgEx (BatchDownload.initSt [BatchDownload.batC1])
        [.fire, .fire, .fire]).latched = true) :=
  ⟨⟨rfl, (C1_amended BatchDownload.cfgEx [BatchDownload.batC1]
      [.fire, .fire, .fire]).1 (some 0) 0 0 0 rfl⟩,
   (C1_amended BatchDownload.cfgEx [BatchDownload.batC1]
      [.fire, .fire, .fire]).2.1 rfl⟩

/-- Counterexample to claim C2: after five tasks are dispatched, one of
them settles, the threshold race resolves and the whole `dlPromise` array
is cleared; the loop then dispatches two further tasks while four old
ones are still unsettled, so six download tasks are in flight at once —
the in-flight count exceeds the concurrency budget of 5. -/
theorem C2_counterexample :
    (BatchDownload.exec BatchDownload.cfgEx (BatchDownload.initSt [BatchDownload.batC2])
        BatchDownload.evsC2).inFlight.length = 6 :=
  rfl

/-- Claim C2 as amended: what never exceeds 5 is the tracked `dlPromise`
batch — at most 5 tasks are dispatched before the loop waits on the
race — but the wait resolves as soon as the first member of that batch
settles and the array is then cleared wholesale, so tasks dispatched but
unsettled can accumulate across batches and the in-flight count can
exceed the budget. -/
theorem C2_amended (cfg : BatchDownload.Cfg) (batches : List BatchDownload.Batch)
    (evs : List BatchDownload.Ev) :
    (BatchDownload.exec cfg (BatchDownload.initSt batches) evs).tracked.length ≤ 5 :=
  (BatchDownload.exec_Inv2 cfg batches evs).1

/-- Claim C3, evaluated at the failing input: one task for artwork "a"
(task id "a_0") is dispatched and settles successfully; `removeTask`
searches `tasks` for the artwork id "a", never matches the stored task id
"a_0", and removes nothing; a subsequent abort therefore invokes
`onDownloadAbort` with `["a_0"]` although nothing is in flight —
settled task ids are passed to the abort callback, contradicting the
claim that exactly the in-flight ids are passed. -/
theorem C3_bug_settled_id_in_abort_callback :
    (BatchDownload.exec BatchDownload.cfgEx (BatchDownload.initSt [BatchDownload.batC3])
        [.fire, .fire, .settle 0 true false, .abortReq]).abortCb = some ["a_0"] ∧
    (BatchDownload.exec BatchDownload.cfgEx (BatchDownload.initSt [BatchDownload.batC3])
        [.fire, .fire, .settle 0 true false, .abortReq]).inFlight = [] ∧
    (BatchDownload.exec BatchDownload.cfgEx (BatchDownload.initSt [BatchDownload.batC3])
        [.fire, .fire, .settle 0 true false, .abortReq]).successd = ["a"] ∧
    (BatchDownload.exec BatchDownload.cfgEx (BatchDownload.initSt [BatchDownload.batC3])
        [.fire, .fire, .settle 0 true false, .abortReq]).tasks = ["a_0"] :=
  ⟨rfl, rfl, rfl, rfl⟩

/-- Counterexample to claim C4: tasks for "a" and "b" both fail with a
429 while queued before the next dispatch point; two rate-limit signals
are observed but only a single cooldown occurs before "c" is attempted
(the coalesced flag is cleared once), so cooldowns are not one-per-signal. -/
theorem C4_counterexample :
    (BatchDownload.exec BatchDownload.cfgEx (BatchDownload.initSt [BatchDownload.batC4])
        BatchDownload.evsC4).n429 = 2 ∧
    (BatchDownload.exec BatchDownload.cfgEx (BatchDownload.initSt [BatchDownload.batC4])
        BatchDownload.evsC4).nCooldown = 1 ∧
    (BatchDownload.exec BatchDownload.cfgEx (BatchDownload.initSt [BatchDownload.batC4])
        BatchDownload.evsC4).status429 = false ∧
    (BatchDownload.exec BatchDownload.cfgEx (BatchDownload.initSt [BatchDownload.batC4])
        BatchDownload.evsC4).pc = BatchDownload.Pc.parseAwait "c" [] :=
  ⟨rfl, rfl, rfl, rfl⟩

/-- Claim C4 as amended: every 429 failure observed by the handler sets
the cooldown flag; at the start of each id's processing a set flag incurs
exactly one fixed cooldown, which clears it before that id is dispatched;
hence over every run the number of cooldowns never exceeds the number of
observed rate-limit signals (signals coalesced before one dispatch point
share a single cooldown, and a signal after the last dispatch incurs
none). -/
theorem C4_amended (cfg : BatchDownload.Cfg) (batches : List BatchDownload.Batch)
    (evs : List BatchDownload.Ev) :
    (BatchDownload.exec cfg (BatchDownload.initSt batches) evs).nCooldown ≤
      (BatchDownload.exec cfg (BatchDownload.initSt batches) evs).n429 := by
  have h := (BatchDownload.exec_Inv4 cfg batches evs).1
  unfold BatchDownload.cdInv at h
  omega
